import Mathlib

/-!
Verification development for the real-time data-synchronization layer of the
FLOF operator console.  The definitions below are a shallow embedding of the
relevant TypeScript sources:

* `src/ui/src/api/client.ts` — the record types returned by the pull
  endpoints, and `fetchJSON`'s failure handling;
* `src/ui/src/panels/BacktestLab.tsx` — the zustand store (`useStore`, one
  slot per data domain with a wholesale-replacement setter each) and the
  active-backtest polling effect with its terminal-status refresh cascade;
* the `Layout` component — `fetchAll` (the dashboard pull), the 2000 ms
  polling interval, and the push-channel `dashboard` handler;
* `src/ui/src/api/websocket.ts` — the `WSManager` connection manager
  (socket lifecycle, single reconnect-timer field, handler registry and
  message dispatch).

JavaScript numbers are modelled as `Int` (no claim performs arithmetic on
them), `Record<string, unknown>` values as association lists over a small
JSON value type `JVal`, and nullable fields as `Option`.
-/

/-- Small JSON value type used for `Record<string, unknown>` fields and for
parsed error bodies.  Arrays/objects nested inside `detail` are not needed by
any claim, so the leaf forms suffice. -/
inductive JVal where
  | jnull : JVal
  | jbool (b : Bool) : JVal
  | jnum (n : Int) : JVal
  | jstr (s : String) : JVal
deriving DecidableEq, Repr

/-- JavaScript truthiness of a `JVal`, as used by `err.detail || res.statusText`. -/
def JVal.truthy : JVal → Bool
  | .jnull => false
  | .jbool b => b
  | .jnum n => n ≠ 0
  | .jstr s => s ≠ ""

/-- Stringification applied when a `JVal` becomes an `Error` message. -/
def JVal.asString : JVal → String
  | .jnull => "null"
  | .jbool true => "true"
  | .jbool false => "false"
  | .jnum n => toString n
  | .jstr s => s

/-- An opaque key/value map (`Record<string, unknown>` in the source). -/
abbrev UMap := List (String × JVal)

/-- `DashboardData` from `client.ts`. -/
structure DashboardData where
  state : String
  equity : Int
  peak_equity : Int
  max_drawdown : Int
  max_drawdown_pct : Int
  current_price : Int
  atr : Int
  trade_count : Int
  open_positions : Int
  predator_state : String
  macro_bias : Option String
  regime : String
  win_rate : Int
  profit_factor : Int
  total_pnl : Int
deriving DecidableEq, Repr

/-- `Position` from `client.ts`. -/
structure Position where
  position_id : String
  direction : String
  grade : String
  entry_price : Int
  stop_price : Int
  target_price : Int
  total_contracts : Int
  remaining_contracts : Int
  phase : String
  partial_filled : Bool
  breakeven_set : Bool
  highest_favorable : Int
  entry_time_ns : Int
  pnl_dollars : Int
  pnl_r_multiple : Int
  partial_pnl_dollars : Int
deriving DecidableEq, Repr

/-- `Trade` from `client.ts`. -/
structure Trade where
  position_id : String
  direction : String
  grade : String
  score_total : Int
  score_tier1 : Int
  score_tier2 : Int
  score_tier3 : Int
  entry_price : Int
  stop_price : Int
  target_price : Int
  exit_price : Int
  contracts : Int
  pnl_dollars : Int
  pnl_r_multiple : Int
  exit_reason : String
  poi_type : String
  timestamp_ns : Int
  exit_time_ns : Int
deriving DecidableEq, Repr

/-- `Rejection` from `client.ts`. -/
structure Rejection where
  reason : String
  gate : String
  timestamp_ns : Int
  direction : String
  score : Int
deriving DecidableEq, Repr

/-- `ScoringData` from `client.ts`. -/
structure ScoringData where
  trades : List Trade
  rejections : List Rejection
  grade_distribution : List (String × Int)
deriving DecidableEq, Repr

/-- `RiskData` from `client.ts`. -/
structure RiskData where
  pillars : List (String × UMap)
  gates : List (String × UMap)
  is_flattened : Bool
  consecutive_losses : Int
deriving DecidableEq, Repr

/-- `Toggle` from `client.ts`. -/
structure Toggle where
  id : String
  name : String
  category : String
  enabled : Bool
  raw_value : Bool
  is_safety : Bool
  parents : List String
  key : String
deriving DecidableEq, Repr

/-- `EquityPoint` from `client.ts`. -/
structure EquityPoint where
  timestamp_ns : Int
  equity : Int
deriving DecidableEq, Repr

/-- `POI` from `client.ts`. -/
structure POI where
  type : String
  price : Int
  zone_high : Int
  zone_low : Int
  timeframe : String
  direction : String
  is_extreme : Bool
  is_decisional : Bool
  is_flip_zone : Bool
  is_sweep_zone : Bool
  is_unicorn : Bool
  has_inducement : Bool
  is_fresh : Bool
deriving DecidableEq, Repr

/-- The optional `summary` record of `BacktestStatus` from `client.ts`. -/
structure BTSummary where
  trade_count : Int
  total_pnl : Int
  final_equity : Int
  win_rate : Int
  max_drawdown : Int
  max_drawdown_pct : Int
deriving DecidableEq, Repr

/-- `BacktestStatus` from `client.ts`; `status` is a plain string in the
source (`"queued" | "running" | "completed" | "failed"` by convention). -/
structure BacktestStatus where
  job_id : String
  status : String
  progress : Int
  total_bars : Int
  params : UMap
  summary : Option BTSummary
  error : Option String
deriving DecidableEq, Repr

/-- The `Panel` union type of the store. -/
inductive Panel where
  | fleetHealth | toggleBoard | glassBox | backtestLab
deriving DecidableEq, Repr

/-- The zustand store created by `useStore` (`create<Store>((set) => ...)`):
one named slot per data domain.  Initial values appear in `storeInit`. -/
structure Store where
  activePanel : Panel
  dashboard : Option DashboardData
  positions : List Position
  trades : List Trade
  toggles : List Toggle
  equityCurve : List EquityPoint
  scoring : Option ScoringData
  risk : Option RiskData
  pois : List POI
  activeBacktest : Option BacktestStatus
  loading : Bool
  error : Option String
  lastUpdate : Int
deriving DecidableEq, Repr

/-- The initial store state from `useStore`'s creation record. -/
def storeInit : Store :=
  { activePanel := .fleetHealth
    dashboard := none
    positions := []
    trades := []
    toggles := []
    equityCurve := []
    scoring := none
    risk := none
    pois := []
    activeBacktest := none
    loading := false
    error := none
    lastUpdate := 0 }

/-- `setActivePanel: (panel) => set({ activePanel: panel })`. -/
def setActivePanel (s : Store) (p : Panel) : Store := { s with activePanel := p }

/-- `setDashboard: (data) => set({ dashboard: data })`. -/
def setDashboard (s : Store) (d : DashboardData) : Store := { s with dashboard := some d }

/-- `setPositions: (data) => set({ positions: data })`. -/
def setPositions (s : Store) (d : List Position) : Store := { s with positions := d }

/-- `setTrades: (data) => set({ trades: data })`. -/
def setTrades (s : Store) (d : List Trade) : Store := { s with trades := d }

/-- `setToggles: (data) => set({ toggles: data })`. -/
def setToggles (s : Store) (d : List Toggle) : Store := { s with toggles := d }

/-- `setEquityCurve: (data) => set({ equityCurve: data })`. -/
def setEquityCurve (s : Store) (d : List EquityPoint) : Store := { s with equityCurve := d }

/-- `setScoring: (data) => set({ scoring: data })`. -/
def setScoring (s : Store) (d : ScoringData) : Store := { s with scoring := some d }

/-- `setRisk: (data) => set({ risk: data })`. -/
def setRisk (s : Store) (d : RiskData) : Store := { s with risk := some d }

/-- `setPois: (data) => set({ pois: data })`. -/
def setPois (s : Store) (d : List POI) : Store := { s with pois := d }

/-- `setActiveBacktest: (data) => set({ activeBacktest: data })`; the setter
accepts `BacktestStatus | null`. -/
def setActiveBacktest (s : Store) (d : Option BacktestStatus) : Store := { s with activeBacktest := d }

/-- `setLoading: (loading) => set({ loading })`. -/
def setLoading (s : Store) (b : Bool) : Store := { s with loading := b }

/-- `setError: (error) => set({ error })`; the setter accepts `string | null`. -/
def setError (s : Store) (e : Option String) : Store := { s with error := e }

/-- `setLastUpdate: (ts) => set({ lastUpdate: ts })`. -/
def setLastUpdate (s : Store) (t : Int) : Store := { s with lastUpdate := t }

/-!
## WSManager connection machine (`src/ui/src/api/websocket.ts`)

The connection manager is embedded as a deterministic step function over a
state that records every socket ever created by `connect()` (indexed by
creation order, so a socket handle is a list index), the manager's `this.ws`
reference, and its `this.reconnectTimer` field.  `pending` counts the actual
`setTimeout` callbacks outstanding in the runtime, so that "at most one
reconnection timer is pending" is a statement about real timers, not about
the field.

Events are the manager's public calls (`connect`, `disconnect`), the firing
of the reconnect timeout, and the socket callbacks (`onopen`/`onclose`/
`onerror`) the browser may deliver.  Every socket created by `connect()` has
all callbacks attached immediately, and they close over the manager, so a
callback of an old (replaced or disconnected) socket still mutates the
manager's state — the step function reflects this.  `validEv` restricts
event delivery to what the runtime can actually produce (e.g. a close event
fires at most once per socket); the step function is total and leaves the
state unchanged on an undeliverable event.
-/

/-- Ready state of one `WebSocket` handle. -/
inductive SockRS where
  | connecting | opened | closing | closed
deriving DecidableEq, Repr

/-- A socket is live while it is connecting or open. -/
def SockRS.isLive : SockRS → Bool
  | .connecting => true
  | .opened => true
  | _ => false

/-- State of the `WSManager` singleton together with the sockets and timers
it has created.  `socks i` is the ready state of the `i`-th socket ever
constructed; `ws` is `this.ws` (a socket index or `null`); `timerSet` is
whether `this.reconnectTimer` is non-null; `pending` counts outstanding
`setTimeout` callbacks created by `scheduleReconnect`. -/
structure ConnState where
  socks : List SockRS
  ws : Option Nat
  timerSet : Bool
  pending : Nat
deriving DecidableEq, Repr

/-- The manager at construction: no socket, no timer. -/
def wsInit : ConnState := ⟨[], none, false, 0⟩

/-- Number of live sockets in existence. -/
def liveCount (s : ConnState) : Nat := (s.socks.filter SockRS.isLive).length

/-- Effect of `this.ws = new WebSocket(this.url)`: a fresh socket in state
CONNECTING becomes the referenced handle.  Nothing closes the previous
socket. -/
def newSock (s : ConnState) : ConnState :=
  { s with socks := s.socks ++ [.connecting], ws := some s.socks.length }

/-- `connect()`: `if (this.ws?.readyState === WebSocket.OPEN) return` —
only a currently OPEN referenced socket short-circuits; otherwise a new
socket is created and assigned. -/
def connectFn (s : ConnState) : ConnState :=
  match s.ws with
  | some i => if s.socks.get? i = some .opened then s else newSock s
  | none => newSock s

/-- `clearTimeout(this.reconnectTimer); this.reconnectTimer = null`, guarded
by `if (this.reconnectTimer)`. -/
def clearRecTimer (s : ConnState) : ConnState :=
  if s.timerSet then { s with timerSet := false, pending := s.pending - 1 } else s

/-- `scheduleReconnect()`: early-returns when `this.reconnectTimer` is
already set, otherwise creates one `setTimeout` and stores its handle. -/
def schedReconnect (s : ConnState) : ConnState :=
  if s.timerSet then s else { s with timerSet := true, pending := s.pending + 1 }

/-- `sock.close()` on the socket with index `i`: a CONNECTING or OPEN socket
moves to CLOSING (its close event is delivered later); on a CLOSING or
CLOSED socket the call is a no-op. -/
def closeSock (s : ConnState) (i : Nat) : ConnState :=
  match s.socks.get? i with
  | some .connecting | some .opened => { s with socks := s.socks.set i .closing }
  | _ => s

/-- Events the manager reacts to: its public methods, the reconnect-timeout
callback, and browser delivery of a socket's open/close/error event. -/
inductive ConnEvent where
  | connect
  | disconnect
  | timerFire
  | sockOpen (i : Nat)
  | sockClose (i : Nat)
  | sockError (i : Nat)
deriving DecidableEq, Repr

/-- Which events the runtime can deliver in state `s`: the timeout callback
runs only while scheduled; `open` fires only on a CONNECTING socket; `close`
and `error` fire only on an existing, not-yet-closed socket. -/
def validEv (s : ConnState) : ConnEvent → Bool
  | .connect => true
  | .disconnect => true
  | .timerFire => s.timerSet
  | .sockOpen i => s.socks.get? i == some .connecting
  | .sockClose i => decide (i < s.socks.length) && !(s.socks.get? i == some .closed)
  | .sockError i => decide (i < s.socks.length) && !(s.socks.get? i == some .closed)

/-- One step of the manager.  Each branch is read off the corresponding
handler in `websocket.ts`:
* `connect` / `disconnect` are the public methods;
* `timerFire` is the `setTimeout` body of `scheduleReconnect`
  (`this.reconnectTimer = null; this.connect()`);
* `sockOpen i` marks socket `i` OPEN and runs `onopen` (clear the timer) —
  every created socket's `onopen` closes over the manager;
* `sockClose i` marks socket `i` CLOSED and runs `onclose`
  (`this.scheduleReconnect()`), again regardless of whether `i` is still the
  referenced socket;
* `sockError i` runs `onerror` (`this.ws?.close()` — note it closes the
  *currently referenced* socket, not necessarily socket `i`).
An event `validEv` rejects leaves the state unchanged. -/
def wsStep (s : ConnState) : ConnEvent → ConnState
  | .connect => connectFn s
  | .disconnect =>
      let s1 := clearRecTimer s
      let s2 := match s1.ws with
        | some i => closeSock s1 i
        | none => s1
      { s2 with ws := none }
  | .timerFire =>
      if s.timerSet then
        connectFn { s with timerSet := false, pending := s.pending - 1 }
      else s
  | .sockOpen i =>
      if s.socks.get? i = some .connecting then
        clearRecTimer { s with socks := s.socks.set i .opened }
      else s
  | .sockClose i =>
      if i < s.socks.length ∧ s.socks.get? i ≠ some .closed then
        schedReconnect { s with socks := s.socks.set i .closed }
      else s
  | .sockError i =>
      if i < s.socks.length ∧ s.socks.get? i ≠ some .closed then
        match s.ws with
        | some j => closeSock s j
        | none => s
      else s

/-- Run a sequence of events from a state. -/
def wsRun (s : ConnState) : List ConnEvent → ConnState
  | [] => s
  | e :: es => wsRun (wsStep s e) es

/-- A trace is valid when every event is deliverable in the state it meets. -/
def validTrace (s : ConnState) : List ConnEvent → Bool
  | [] => true
  | e :: es => validEv s e && validTrace (wsStep s e) es

/-- Timer bookkeeping invariant: the number of outstanding reconnect
timeouts is 1 exactly while `this.reconnectTimer` is set, else 0. -/
def connInv (s : ConnState) : Prop :=
  s.pending = if s.timerSet then 1 else 0

/-!
## WSManager handler registry and message dispatch (`websocket.ts`)

`this.handlers` is a `Map<string, MessageHandler[]>`; handlers are
identified here by numeric ids (function identity in the source).  The
`onmessage` callback is

```
try {
  const msg = JSON.parse(event.data)
  const handlers = this.handlers.get(msg.type) || []
  for (const h of handlers) h(msg.data)
} catch { /- ignore parse errors -/ }
```

so the whole dispatch loop sits inside the `try`: a handler that throws
aborts the loop (its exception lands in the same `catch`), and handlers
after it never run.  `invokeAll` computes, for a given set of throwing
handlers, the list of handlers that actually get invoked; `onMessage`
computes the full invocation list `(handler, data)` of one inbound message,
where `none` stands for a payload `JSON.parse` rejects.
-/

/-- The `Map<string, MessageHandler[]>` registry, as an association list
with unique keys (a JS `Map`). -/
abbrev Registry := List (String × List Nat)

/-- `this.handlers.get(t) || []`. -/
def regGet : Registry → String → List Nat
  | [], _ => []
  | (k, l) :: rest, t => if k = t then l else regGet rest t

/-- `this.handlers.set(t, l)`: replace the entry for `t`, or append one. -/
def regSet : Registry → String → List Nat → Registry
  | [], t, l => [(t, l)]
  | (k, l') :: rest, t, l =>
      if k = t then (t, l) :: rest else (k, l') :: regSet rest t l

/-- `on(type, handler)`: fetch the list (or `[]`), push, store back. -/
def onReg (r : Registry) (t : String) (h : Nat) : Registry :=
  regSet r t (regGet r t ++ [h])

/-- `off(type, handler)`: store back the list filtered by identity. -/
def offReg (r : Registry) (t : String) (h : Nat) : Registry :=
  regSet r t ((regGet r t).filter (fun g => g ≠ h))

/-- `for (const h of handlers) h(msg.data)` inside the `try`: each handler
runs in order until one throws; the throwing handler is the last one
invoked, and the rest of the list is skipped (the exception is swallowed by
the surrounding `catch`). -/
def invokeAll (throws : Nat → Bool) : List Nat → List Nat
  | [] => []
  | h :: rest => if throws h then [h] else h :: invokeAll throws rest

/-- Invocation list of one inbound message: `env = none` is a payload that
fails `JSON.parse` (dispatched to nobody); `env = some (t, d)` is a decoded
envelope `{type: t, data: d}`, dispatched to the handlers registered for
`t`, each invoked with `d`. -/
def onMessage (α : Type) (r : Registry) (env : Option (String × α))
    (throws : Nat → Bool) : List (Nat × α) :=
  match env with
  | none => []
  | some (t, d) => (invokeAll throws (regGet r t)).map (fun h => (h, d))

/-!
## Pull requests (`client.ts` `fetchJSON`) and the Layout poll loop

An HTTP response is modelled by its `ok` flag, its `statusText`, the parse
outcome of its body, and (for the success path) the decoded payload.
`fetchJSON`'s failure path is

```
const err = await res.json().catch(() => ({ detail: res.statusText }))
throw new Error(err.detail || res.statusText)
```

so the thrown message is the body's `detail` value when the body parses to
an object whose `detail` is *truthy*, and the status text otherwise
(body unparsable, body not an object, `detail` absent, or `detail` falsy —
`""`, `0`, `false`, `null`).
-/

/-- Outcome of `res.json()` on the error path: the body failed to parse,
parsed to a non-object value, or parsed to an object with the given fields
(`JSON.parse` keeps the last duplicate key, handled in `lookupField`). -/
inductive BodyParse where
  | malformed
  | parsedNonObj (v : JVal)
  | parsedObj (fields : List (String × JVal))
deriving DecidableEq, Repr

/-- Field access on a parsed JSON object; later duplicate keys shadow
earlier ones, as in `JSON.parse`. -/
def lookupField : List (String × JVal) → String → Option JVal
  | [], _ => none
  | (k, v) :: rest, key =>
      match lookupField rest key with
      | some w => some w
      | none => if k = key then some v else none

/-- One HTTP response, as observed by `fetchJSON`; `payload` is the decoded
body of a successful response. -/
structure PullResponse (α : Type) where
  ok : Bool
  statusText : String
  body : BodyParse
  payload : α
deriving DecidableEq, Repr

/-- The failure value a non-success response rejects with.  `errMsg m` is
the `new Error(err.detail || res.statusText)` the source constructs;
`typeErr m` is the `TypeError` thrown by the `err.detail` property access
itself when the parsed body is `null` (in JS, property access on `null`
throws instead of yielding `undefined`). -/
inductive FetchErr where
  | errMsg (msg : String)
  | typeErr (msg : String)
deriving DecidableEq, Repr

/-- The runtime's message for the `TypeError` raised by `err.detail` when
`err` is `null` (V8 wording).  Nothing below depends on this exact text —
only on the failure being a `typeErr`, distinct from every constructed
`errMsg`, and in particular not the response's status text. -/
def nullDetailMsg : String := "Cannot read properties of null (reading 'detail')"

/-- Both `Error` and `TypeError` are `instanceof Error` and carry a
`message`, which is what `fetchAll`'s catch reads. -/
def FetchErr.message : FetchErr → String
  | .errMsg m => m
  | .typeErr m => m

/-- The failure thrown by `fetchJSON` on a non-success response, from
`const err = await res.json().catch(() => ({detail: res.statusText}));
throw new Error(err.detail || res.statusText)`:
* body unparsable — the `catch` substitutes `{detail: res.statusText}`, so
  the message is the status text (also when it is `""`: `"" || "" = ""`);
* body parsing to `null` — `err.detail` itself throws a `TypeError`;
* body parsing to another non-object primitive — property access yields
  `undefined`, so the status text;
* body an object — `detail` when present and truthy, else the status text. -/
def fetchFailure (body : BodyParse) (statusText : String) : FetchErr :=
  match body with
  | .malformed => .errMsg statusText
  | .parsedNonObj .jnull => .typeErr nullDetailMsg
  | .parsedNonObj _ => .errMsg statusText
  | .parsedObj fs =>
      match lookupField fs "detail" with
      | none => .errMsg statusText
      | some v => if v.truthy then .errMsg v.asString else .errMsg statusText

/-- The message of the failure a non-success response rejects with — what
callers reading `e.message` observe. -/
def errMessage (body : BodyParse) (statusText : String) : String :=
  (fetchFailure body statusText).message

/-- `fetchJSON`: a successful response resolves with the decoded body; a
non-success response rejects with the `fetchFailure` above. -/
def fetchJSON (α : Type) (r : PullResponse α) : Except FetchErr α :=
  if r.ok then Except.ok r.payload
  else Except.error (fetchFailure r.body r.statusText)

/-- `Layout.fetchAll` applied to the dashboard pull's response: on success
`setDashboard(data); setLastUpdate(Date.now()); setError(null)`; on failure
only `setError(e instanceof Error ? e.message : ...)` — both thrown
failures are `Error`s, so the error slot gets the thrown message. -/
def fetchAllStep (s : Store) (r : PullResponse DashboardData) (now : Int) : Store :=
  match fetchJSON DashboardData r with
  | .ok data => setError (setLastUpdate (setDashboard s data) now) none
  | .error f => setError s (some f.message)

/-- The `setInterval(fetchAll, 2000)` delay in the Layout poll effect. -/
def pollIntervalMs : Int := 2000

/-- Wall-clock time of the `i`-th dashboard pull: the immediate `fetchAll()`
at effect start is pull 0 at time 0; `setInterval` then fires every
`pollIntervalMs`. -/
def pullTime (i : Nat) : Int := pollIntervalMs * i

/-- State of the Layout poll effect: the store it writes, whether the
interval is still installed, and how many pulls it has issued. -/
structure SchedState where
  store : Store
  intervalActive : Bool
  pullsIssued : Nat
deriving Repr

/-- Events of the poll effect after start: an interval tick (carrying the
response its `fetchAll` call observes and the `Date.now()` it reads), or
the effect cleanup (`clearInterval`). -/
inductive SchedEvent where
  | tick (r : PullResponse DashboardData) (now : Int)
  | stop

/-- Effect start: `fetchAll()` runs once immediately, then the interval is
installed. -/
def schedStart (s : Store) (r : PullResponse DashboardData) (now : Int) : SchedState :=
  { store := fetchAllStep s r now, intervalActive := true, pullsIssued := 1 }

/-- One event of the poll effect: a tick runs `fetchAll` once (success or
failure — nothing in `fetchAll` touches the interval); `stop` only removes
the interval. -/
def schedStep (st : SchedState) : SchedEvent → SchedState
  | .tick r now =>
      if st.intervalActive then
        { store := fetchAllStep st.store r now
          intervalActive := true
          pullsIssued := st.pullsIssued + 1 }
      else st
  | .stop => { st with intervalActive := false }

/-!
## Dashboard-slot writers (Layout) and the BacktestLab job poll loop
-/

/-- The two writers of the dashboard slot in `Layout`: the poll path
(`fetchAll`'s success branch) and the push path (`handleDashboard`:
`setDashboard(data); setLastUpdate(Date.now())`). -/
inductive DashWriter where
  | poll | push
deriving DecidableEq, Repr

/-- Apply one dashboard write by the given writer. -/
def applyDashWrite (w : DashWriter) (s : Store) (d : DashboardData) (now : Int) : Store :=
  match w with
  | .poll => setError (setLastUpdate (setDashboard s d) now) none
  | .push => setLastUpdate (setDashboard s d) now

/-- `status === 'completed' || status === 'failed'` — the sole termination
condition of the BacktestLab poll loop. -/
def isTerminal (s : String) : Bool :=
  s == "completed" || s == "failed"

/-- The slots refreshed by the terminal-status cascade, in source order:
`getDashboard`, `getEquityCurve`, `getTrades`, `getBacktestJobs`. -/
inductive RefreshTarget where
  | dashboard | equityCurve | trades | jobs
deriving DecidableEq, Repr

/-- The four-way cascade fired on terminal status. -/
def cascade : List RefreshTarget :=
  [.dashboard, .equityCurve, .trades, .jobs]

/-- Observable outcome of the BacktestLab poll loop over a sequence of
polled statuses: how many status polls were issued, the successive
descriptor writes (`setActiveBacktest` per poll), the refresh pulls fired,
and the 1-based poll indices after which the cascade fired. -/
structure PollOutcome where
  polls : Nat
  writes : List String
  refreshes : List RefreshTarget
  cascadeAt : List Nat
deriving DecidableEq, Repr

/-- The BacktestLab poll loop (the 500 ms interval effect): each tick polls
the job status and overwrites the active-job slot
(`setActiveBacktest(status)` runs before the terminal check); when the
polled status is terminal the cascade fires, and the effect re-run — whose
guard is `activeBacktest.status !== 'running'` — clears the interval.  The
same guard means a polled status that is neither `'running'` nor terminal
(e.g. `'queued'`) also stops the loop, after its write but with no cascade.
The input list is the sequence of statuses successive polls would observe;
entries after the first non-`'running'` one are never requested. -/
def pollLoop : List String → PollOutcome
  | [] => ⟨0, [], [], []⟩
  | s :: rest =>
      if isTerminal s then ⟨1, [s], cascade, [1]⟩
      else if s == "running" then
        let r := pollLoop rest
        ⟨r.polls + 1, s :: r.writes, r.refreshes, r.cascadeAt.map (· + 1)⟩
      else ⟨1, [s], [], []⟩

/-- The `setInterval` delay of the BacktestLab status poll. -/
def jobPollIntervalMs : Int := 500

/-- A sample dashboard record, used to build concrete responses. -/
def dashSample : DashboardData :=
  { state := "active", equity := 100000, peak_equity := 101000
    max_drawdown := 500, max_drawdown_pct := 1, current_price := 5000
    atr := 12, trade_count := 3, open_positions := 1
    predator_state := "STALK", macro_bias := none, regime := "trend"
    win_rate := 60, profit_factor := 2, total_pnl := 1500 }

/-- A non-success response whose body fails to parse as JSON. -/
def respBadGateway : PullResponse DashboardData :=
  ⟨false, "Bad Gateway", BodyParse.malformed, dashSample⟩

/-- A non-success response with body `{"detail":"bad gateway"}`. -/
def respDetailBG : PullResponse DashboardData :=
  ⟨false, "Bad Gateway", BodyParse.parsedObj [("detail", JVal.jstr "bad gateway")], dashSample⟩

/-- A non-success response with body `{"detail":""}` — the `detail` field is
present but empty. -/
def respEmptyDetail : PullResponse DashboardData :=
  ⟨false, "Bad Gateway", BodyParse.parsedObj [("detail", JVal.jstr "")], dashSample⟩

/-!
## Helper lemmas
-/

theorem connInv_wsInit : connInv wsInit := rfl

theorem connectFn_timerSet (s : ConnState) : (connectFn s).timerSet = s.timerSet := by
  unfold connectFn newSock
  cases s.ws <;> simp only [] <;> split <;> rfl

theorem connectFn_pending (s : ConnState) : (connectFn s).pending = s.pending := by
  unfold connectFn newSock
  cases s.ws <;> simp only [] <;> split <;> rfl

theorem closeSock_timerSet (s : ConnState) (i : Nat) :
    (closeSock s i).timerSet = s.timerSet := by
  unfold closeSock
  split <;> rfl

theorem closeSock_pending (s : ConnState) (i : Nat) :
    (closeSock s i).pending = s.pending := by
  unfold closeSock
  split <;> rfl

theorem closeSock_ws (s : ConnState) (i : Nat) : (closeSock s i).ws = s.ws := by
  unfold closeSock
  split <;> rfl

theorem connInv_step (s : ConnState) (e : ConnEvent) (h : connInv s) :
    connInv (wsStep s e) := by
  unfold connInv at h ⊢
  cases e with
  | connect =>
      simp only [wsStep, connectFn_timerSet, connectFn_pending, h]
  | disconnect =>
      simp only [wsStep]
      rcases hts : s.timerSet with _ | _ <;>
        simp only [clearRecTimer, hts, if_true, if_false, Bool.false_eq_true] <;>
        simp only [hts, if_true, if_false] at h
      · cases hw : s.ws <;> simp [hw, closeSock_timerSet, closeSock_pending, h, hts]
      · cases hw : ({ s with timerSet := false, pending := s.pending - 1 } : ConnState).ws <;>
          simp [hw, closeSock_timerSet, closeSock_pending, h]
  | timerFire =>
      rcases hts : s.timerSet with _ | _ <;>
        simp only [wsStep, hts, if_true, if_false, Bool.false_eq_true] <;>
        simp only [hts, if_true, if_false] at h
      · exact h
      · simp [connectFn_timerSet, connectFn_pending, h]
  | sockOpen i =>
      simp only [wsStep]
      split
      · rcases hts : s.timerSet with _ | _ <;>
          simp only [clearRecTimer, hts, if_true, if_false, Bool.false_eq_true] <;>
          simp only [hts, if_true, if_false] at h <;> simp [h]
      · exact h
  | sockClose i =>
      simp only [wsStep]
      split
      · rcases hts : s.timerSet with _ | _ <;>
          simp only [schedReconnect, hts, if_true, if_false, Bool.false_eq_true] <;>
          simp only [hts, if_true, if_false] at h <;> simp [h]
      · exact h
  | sockError i =>
      simp only [wsStep]
      split
      · cases hw : s.ws <;> simp [hw, closeSock_timerSet, closeSock_pending, h]
      · exact h

theorem connInv_run (s : ConnState) (es : List ConnEvent) (h : connInv s) :
    connInv (wsRun s es) := by
  induction es generalizing s with
  | nil => exact h
  | cons e es ih => exact ih _ (connInv_step s e h)

theorem disconnect_timerSet (s : ConnState) : (wsStep s .disconnect).timerSet = false := by
  simp only [wsStep]
  rcases hw : (clearRecTimer s).ws with _ | i
  · simp only [hw]
    unfold clearRecTimer
    split <;> simp_all [clearRecTimer]
  · simp only [hw, closeSock_timerSet]
    unfold clearRecTimer
    split <;> simp_all [clearRecTimer]

theorem disconnect_pending (s : ConnState) (h : connInv s) :
    (wsStep s .disconnect).pending = 0 := by
  simp only [wsStep]
  unfold connInv at h
  rcases hw : (clearRecTimer s).ws with _ | i <;>
    simp only [hw, closeSock_pending] <;>
    · unfold clearRecTimer
      rcases hts : s.timerSet with _ | _ <;> simp_all

theorem regGet_regSet (r : Registry) (t t' : String) (l : List Nat) :
    regGet (regSet r t l) t' = if t' = t then l else regGet r t' := by
  induction r with
  | nil =>
      simp only [regSet, regGet]
      by_cases h : t' = t
      · simp [h]
      · have hn : ¬ t = t' := fun hc => h hc.symm
        simp [h, hn]
  | cons kv rest ih =>
      obtain ⟨k, l'⟩ := kv
      simp only [regSet]
      by_cases hk : k = t
      · subst hk
        by_cases h : t' = k
        · subst h
          simp [regGet]
        · have hn : ¬ k = t' := fun hc => h hc.symm
          simp [regGet, h, hn]
      · simp only [hk, if_false, regGet]
        rw [ih]
        by_cases h1 : k = t'
        · have h2 : ¬ t' = t := fun hc => hk (h1.trans hc)
          simp [h1, h2]
        · simp [h1]

theorem regGet_onReg (r : Registry) (t t' : String) (h : Nat) :
    regGet (onReg r t h) t' = if t' = t then regGet r t ++ [h] else regGet r t' := by
  unfold onReg
  exact regGet_regSet r t t' _

theorem invokeAll_noThrow (l : List Nat) : invokeAll (fun _ => false) l = l := by
  induction l with
  | nil => rfl
  | cons h rest ih => simp [invokeAll, ih]

theorem invokeAll_stops (throws : Nat → Bool) (pre : List Nat) (h : Nat)
    (post : List Nat) (hpre : ∀ g ∈ pre, throws g = false) (hth : throws h = true) :
    invokeAll throws (pre ++ h :: post) = pre ++ [h] := by
  induction pre with
  | nil => simp [invokeAll, hth]
  | cons g rest ih =>
      have hg : throws g = false := hpre g (List.mem_cons_self g rest)
      have ih' := ih (fun x hx => hpre x (List.mem_cons_of_mem g hx))
      simp [invokeAll, hg, ih']

/-!
## Claim theorems
-/

/-- C1, counterexample.  The claim says that when one of two registered
handlers throws, the later handler is still invoked with the same data.  On
the code this is false: with handlers 1 and 2 registered for `"dashboard"`
in that order and handler 1 throwing, the dispatch of a decoded envelope
`{type:"dashboard", data:0}` invokes only handler 1 — the `for` loop runs
inside the `try`, so handler 1's exception aborts it and handler 2 is never
invoked. -/
theorem c1_counterexample :
    (regGet (onReg (onReg [] "dashboard" 1) "dashboard" 2) "dashboard").length = 2
    ∧ onMessage Int (onReg (onReg [] "dashboard" 1) "dashboard" 2)
        (some ("dashboard", 0)) (fun h => h == 1) = [(1, 0)]
    ∧ ((2 : Nat), (0 : Int)) ∉ onMessage Int (onReg (onReg [] "dashboard" 1) "dashboard" 2)
        (some ("dashboard", 0)) (fun h => h == 1) := by
  refine ⟨rfl, rfl, ?_⟩
  decide

/-- C1, amended.  For an inbound message whose envelope decodes and whose
type's handler list is `pre ++ h :: post`, if no handler in `pre` throws and
`h` throws, then exactly the handlers `pre ++ [h]` are invoked with the
envelope's data, in registration order: every handler registered after the
throwing one is *not* invoked (the exception is swallowed by the dispatch
`catch`, so only this message's remaining delivery is lost). -/
theorem c1_amended (α : Type) (r : Registry) (t : String) (pre post : List Nat)
    (h : Nat) (throws : Nat → Bool) (d : α)
    (hreg : regGet r t = pre ++ h :: post)
    (hpre : ∀ g ∈ pre, throws g = false)
    (hth : throws h = true) :
    onMessage α r (some (t, d)) throws = (pre ++ [h]).map (fun g => (g, d)) := by
  simp only [onMessage, hreg, invokeAll_stops throws pre h post hpre hth]

/-- Witness for C1 (amended): three handlers for topic `"x"`, handler 2
throws — handlers 1 and 2 are invoked with the data, handler 3 is not. -/
theorem c1_amended_witness :
    onMessage Int (onReg (onReg (onReg [] "x" 1) "x" 2) "x" 3)
      (some ("x", 7)) (fun g => g == 2) = [(1, 7), (2, 7)] :=
  c1_amended Int (onReg (onReg (onReg [] "x" 1) "x" 2) "x" 3) "x" [1] [3] 2
    (fun g => g == 2) 7 rfl (by decide) rfl

/-- C2, counterexample.  The claim says no reconnection timer ever becomes
pending between `disconnect()` and the next `connect()`.  On the code this
is false: after `connect`, socket 0 opening, and `disconnect()`, the close
event of the very socket `disconnect()` closed is still deliverable (the
trace is valid), its `onclose` runs `scheduleReconnect()`, and a
reconnection timer becomes pending — with no intervening `connect()` call. -/
theorem c2_counterexample :
    validTrace wsInit
      [ConnEvent.connect, ConnEvent.sockOpen 0, ConnEvent.disconnect, ConnEvent.sockClose 0]
      = true
    ∧ (wsRun wsInit
        [ConnEvent.connect, ConnEvent.sockOpen 0, ConnEvent.disconnect, ConnEvent.sockClose 0]).pending = 1
    ∧ (wsRun wsInit
        [ConnEvent.connect, ConnEvent.sockOpen 0, ConnEvent.disconnect, ConnEvent.sockClose 0]).timerSet = true := by
  decide

/-- C2, amended.  `disconnect()` cancels any pending reconnection timer, so
immediately after it returns no timer is pending; but the asynchronous close
event of a socket it closed still runs `scheduleReconnect()`, so one
reconnection timer becomes pending as soon as such a close event is
delivered — reconnection is not prevented until the next `connect()`. -/
theorem c2_amended (es : List ConnEvent) (i : Nat)
    (h1 : i < (wsStep (wsRun wsInit es) ConnEvent.disconnect).socks.length)
    (h2 : (wsStep (wsRun wsInit es) ConnEvent.disconnect).socks.get? i ≠ some SockRS.closed) :
    (wsStep (wsRun wsInit es) ConnEvent.disconnect).timerSet = false
    ∧ (wsStep (wsRun wsInit es) ConnEvent.disconnect).pending = 0
    ∧ (wsStep (wsStep (wsRun wsInit es) ConnEvent.disconnect) (ConnEvent.sockClose i)).pending = 1 := by
  have hinv : connInv (wsRun wsInit es) := connInv_run wsInit es connInv_wsInit
  have ht := disconnect_timerSet (wsRun wsInit es)
  have hp := disconnect_pending (wsRun wsInit es) hinv
  refine ⟨ht, hp, ?_⟩
  generalize hd : wsStep (wsRun wsInit es) ConnEvent.disconnect = d at h1 h2 ht hp
  show (wsStep d (ConnEvent.sockClose i)).pending = 1
  simp only [wsStep]
  rw [if_pos ⟨h1, h2⟩]
  simp [schedReconnect, ht, hp]

/-- Witness for C2 (amended): the trace `connect; open; disconnect` followed
by the delivery of socket 0's close event. -/
theorem c2_amended_witness :
    (wsStep (wsRun wsInit [ConnEvent.connect, ConnEvent.sockOpen 0]) ConnEvent.disconnect).timerSet = false
    ∧ (wsStep (wsRun wsInit [ConnEvent.connect, ConnEvent.sockOpen 0]) ConnEvent.disconnect).pending = 0
    ∧ (wsStep (wsStep (wsRun wsInit [ConnEvent.connect, ConnEvent.sockOpen 0]) ConnEvent.disconnect)
        (ConnEvent.sockClose 0)).pending = 1 :=
  c2_amended [ConnEvent.connect, ConnEvent.sockOpen 0] 0 (by decide) (by decide)

/-- C3, counterexample.  The claim quantifies over *every* sequence of
polled statuses whose first terminal entry sits at position `k`, promising
`k` polls, `k` writes and one cascade.  On the code this is false when a
poll before the first terminal one returns a status that is neither
`'running'` nor terminal: for `["queued", "completed"]` (first terminal at
position 2) the effect re-run's guard `activeBacktest.status !== 'running'`
clears the interval after the `"queued"` write, so only 1 poll is issued,
the `"completed"` entry is never requested, and the cascade never fires. -/
theorem c3_counterexample :
    isTerminal "queued" = false
    ∧ isTerminal "completed" = true
    ∧ (pollLoop ["queued", "completed"]).polls = 1
    ∧ (pollLoop ["queued", "completed"]).writes = ["queued"]
    ∧ (pollLoop ["queued", "completed"]).refreshes = []
    ∧ (pollLoop ["queued", "completed"]).cascadeAt = [] := by
  refine ⟨?_, ?_, rfl, rfl, rfl, rfl⟩ <;> decide

/-- C3, amended.  For every sequence of polled job statuses whose first
terminal entry sits at position `k = pre.length + 1` (1-based) and where
every earlier polled status is `'running'`, the BacktestLab job tracker
issues exactly `k` status polls, overwrites the active-job slot exactly `k`
times (once per poll, with the polled descriptor), and fires the four-way
refresh cascade (dashboard, equity curve, trades, job list) exactly once,
after the `k`-th poll; with `pre = []` this is the very-first-poll edge
case: 1 poll and one cascade.  (A poll returning a non-`'running'`,
non-terminal status instead stops the loop without a cascade, as the
counterexample shows.) -/
theorem c3_job_loop (pre : List String) (t : String) (rest : List String)
    (hpre : ∀ s ∈ pre, s = "running") (ht : isTerminal t = true) :
    (pollLoop (pre ++ t :: rest)).polls = pre.length + 1
    ∧ (pollLoop (pre ++ t :: rest)).writes = pre ++ [t]
    ∧ (pollLoop (pre ++ t :: rest)).refreshes = cascade
    ∧ (pollLoop (pre ++ t :: rest)).cascadeAt = [pre.length + 1] := by
  induction pre with
  | nil => simp [pollLoop, ht]
  | cons s0 rest' ih =>
      have hs0 : s0 = "running" := hpre s0 (List.mem_cons_self _ _)
      subst hs0
      have hterm : isTerminal "running" = false := by decide
      have ih' := ih (fun x hx => hpre x (List.mem_cons_of_mem _ hx))
      obtain ⟨ih1, ih2, ih3, ih4⟩ := ih'
      simp only [List.cons_append, pollLoop, hterm, Bool.false_eq_true, if_false,
        beq_self_eq_true, if_true]
      refine ⟨?_, ?_, ?_, ?_⟩ <;> simp [ih1, ih2, ih3, ih4]

/-- Witness for C3 (amended): statuses `[running, running, completed]` —
exactly 3 polls, 3 descriptor writes, and the 4-way cascade exactly once,
after the 3rd poll. -/
theorem c3_job_loop_witness :
    (pollLoop ["running", "running", "completed"]).polls = 3
    ∧ (pollLoop ["running", "running", "completed"]).writes = ["running", "running", "completed"]
    ∧ (pollLoop ["running", "running", "completed"]).refreshes = cascade
    ∧ (pollLoop ["running", "running", "completed"]).cascadeAt = [3] :=
  c3_job_loop ["running", "running"] "completed" [] (by decide) (by decide)

/-- C4.  Along every event sequence on the connection manager (close and
error events included, in any interleaving with connects, disconnects and
timer firings), at most one reconnection timer is pending at any instant:
`scheduleReconnect` early-returns while `this.reconnectTimer` is set, and
the timer handle field tracks the single outstanding `setTimeout` exactly. -/
theorem c4_reconnect_singleton (es : List ConnEvent) : (wsRun wsInit es).pending ≤ 1 := by
  have h := connInv_run wsInit es connInv_wsInit
  unfold connInv at h
  rcases hts : (wsRun wsInit es).timerSet with _ | _ <;> simp [hts] at h <;> omega

/-- C5, counterexample.  The claim says every reachable state owns at most
one live socket, in particular that `connect()` during a CONNECTING attempt
leaves no second live socket.  On the code this is false: `connect()` only
short-circuits when the referenced socket is OPEN, so the valid trace
`connect; connect` (second call while socket 0 is still CONNECTING) creates
socket 1 while socket 0 is neither closed nor referenced — two live
sockets. -/
theorem c5_counterexample :
    validTrace wsInit [ConnEvent.connect, ConnEvent.connect] = true
    ∧ liveCount (wsRun wsInit [ConnEvent.connect, ConnEvent.connect]) = 2 := by
  decide

/-- C5, amended.  The manager references at most one socket handle
(`this.ws`), and `connect()` is a no-op when the referenced socket is OPEN;
but when the referenced socket is still CONNECTING, `connect()` creates a
fresh socket without closing the previous one — the old socket stays live
(still CONNECTING) and the number of live sockets grows to at least two. -/
theorem c5_amended (s : ConnState) (i : Nat) (hws : s.ws = some i) :
    (s.socks.get? i = some SockRS.opened → wsStep s ConnEvent.connect = s)
    ∧ (s.socks.get? i = some SockRS.connecting →
        (wsStep s ConnEvent.connect).socks.get? i = some SockRS.connecting
        ∧ liveCount (wsStep s ConnEvent.connect) = liveCount s + 1
        ∧ 2 ≤ liveCount (wsStep s ConnEvent.connect)) := by
  constructor
  · intro hopen
    show connectFn s = s
    simp only [connectFn, hws]
    rw [if_pos hopen]
  · intro hconn
    have hne : ¬ s.socks.get? i = some SockRS.opened := by
      rw [hconn]; intro hc; cases hc
    have hstep : wsStep s ConnEvent.connect = newSock s := by
      show connectFn s = newSock s
      simp only [connectFn, hws]
      rw [if_neg hne]
    have hi : i < s.socks.length := List.get?_eq_some.mp hconn |>.1
    have hmem : SockRS.connecting ∈ s.socks := List.get?_mem hconn
    have hlive : liveCount (newSock s) = liveCount s + 1 := by
      simp [liveCount, newSock, List.filter_append, SockRS.isLive]
    have hpos : 0 < liveCount s := by
      have : SockRS.connecting ∈ s.socks.filter SockRS.isLive :=
        List.mem_filter.mpr ⟨hmem, rfl⟩
      exact List.length_pos_of_mem this
    refine ⟨?_, ?_, ?_⟩
    · rw [hstep]
      show (s.socks ++ [SockRS.connecting]).get? i = some SockRS.connecting
      rw [List.get?_append hi]
      exact hconn
    · rw [hstep]; exact hlive
    · rw [hstep, hlive]; omega

/-- Witness for C5 (amended): after one `connect()` the referenced socket 0
is CONNECTING; a second `connect()` leaves socket 0 CONNECTING (and live)
while creating socket 1 — two live sockets. -/
theorem c5_amended_witness :
    (wsStep (wsRun wsInit [ConnEvent.connect]) ConnEvent.connect).socks.get? 0
        = some SockRS.connecting
    ∧ liveCount (wsStep (wsRun wsInit [ConnEvent.connect]) ConnEvent.connect)
        = liveCount (wsRun wsInit [ConnEvent.connect]) + 1
    ∧ 2 ≤ liveCount (wsStep (wsRun wsInit [ConnEvent.connect]) ConnEvent.connect) :=
  (c5_amended (wsRun wsInit [ConnEvent.connect]) 0 rfl).2 rfl

/-- C6.  Registering `h1` then `h2` for topic `t` appends them, in that
order, to `t`'s handler list and leaves every other topic's list unchanged;
dispatching a decoded envelope `{type: t, data: d}` (no handler throwing)
invokes exactly the handlers registered for `t`, each with `d`, in
registration order — so `h1` is invoked before `h2`, and a handler
registered for a different topic is not invoked for this message.  `r` is an
arbitrary prior registry, so this covers every topic and every number of
handlers. -/
theorem c6_dispatch_order (α : Type) (r : Registry) (t : String) (h1 h2 : Nat) (d : α) :
    (∀ t', regGet (onReg (onReg r t h1) t h2) t' =
        if t' = t then regGet r t ++ [h1, h2] else regGet r t')
    ∧ onMessage α (onReg (onReg r t h1) t h2) (some (t, d)) (fun _ => false)
        = (regGet r t ++ [h1, h2]).map (fun g => (g, d)) := by
  have hget : ∀ t', regGet (onReg (onReg r t h1) t h2) t' =
      if t' = t then regGet r t ++ [h1, h2] else regGet r t' := by
    intro t'
    by_cases h : t' = t
    · subst h
      simp [regGet_onReg]
    · simp [regGet_onReg, h]
  refine ⟨hget, ?_⟩
  simp only [onMessage]
  rw [hget t, if_pos rfl, invokeAll_noThrow]


/-- C7, counterexample.  The claim says the error message is the body's
`detail` field *when present*.  On the code this is false for a present but
empty `detail`: with body `{"detail":""}` the thrown message is the status
text `"Bad Gateway"`, not the present `detail` value `""`, because the
source selects it with JS truthiness (`err.detail || res.statusText`). -/
theorem c7_counterexample :
    fetchJSON DashboardData respEmptyDetail = Except.error (FetchErr.errMsg "Bad Gateway")
    ∧ lookupField [("detail", JVal.jstr "")] "detail" = some (JVal.jstr "")
    ∧ (JVal.jstr "").asString = ""
    ∧ ("Bad Gateway" : String) ≠ "" := by
  refine ⟨rfl, rfl, rfl, ?_⟩
  decide

/-- C7, amended.  A pull request yielding a non-success response rejects
with an `Error` whose message is the body's `detail` value when the body
parses to an object whose `detail` is present and truthy (for a string:
non-empty), and the status text when the body is unparsable, parses to a
non-`null` non-object value, or parses to an object whose `detail` is
absent or falsy — except that a body parsing to JSON `null` makes the
`err.detail` access itself throw a `TypeError`, whose runtime message is
not derived from the response (in particular not the status text).  In
every failure case the dashboard slot the request would have written is
left unchanged, and the error slot records the thrown failure's message. -/
theorem c7_amended (r : PullResponse DashboardData) (s : Store) (now : Int)
    (hfail : r.ok = false) :
    (∀ fs v, r.body = BodyParse.parsedObj fs → lookupField fs "detail" = some v →
        v.truthy = true →
        fetchJSON DashboardData r = Except.error (FetchErr.errMsg v.asString))
    ∧ (r.body = BodyParse.malformed →
        fetchJSON DashboardData r = Except.error (FetchErr.errMsg r.statusText))
    ∧ (∀ v, r.body = BodyParse.parsedNonObj v → v ≠ JVal.jnull →
        fetchJSON DashboardData r = Except.error (FetchErr.errMsg r.statusText))
    ∧ (r.body = BodyParse.parsedNonObj JVal.jnull →
        fetchJSON DashboardData r = Except.error (FetchErr.typeErr nullDetailMsg))
    ∧ (∀ m, FetchErr.typeErr nullDetailMsg ≠ FetchErr.errMsg m)
    ∧ (∀ fs, r.body = BodyParse.parsedObj fs → lookupField fs "detail" = none →
        fetchJSON DashboardData r = Except.error (FetchErr.errMsg r.statusText))
    ∧ (∀ fs v, r.body = BodyParse.parsedObj fs → lookupField fs "detail" = some v →
        v.truthy = false →
        fetchJSON DashboardData r = Except.error (FetchErr.errMsg r.statusText))
    ∧ (fetchAllStep s r now).dashboard = s.dashboard
    ∧ (fetchAllStep s r now).error = some (errMessage r.body r.statusText) := by
  have hfj : fetchJSON DashboardData r = Except.error (fetchFailure r.body r.statusText) := by
    simp [fetchJSON, hfail]
  refine ⟨?_, ?_, ?_, ?_, ?_, ?_, ?_, ?_, ?_⟩
  · intro fs v hb hl ht
    rw [hfj, hb]
    simp [fetchFailure, hl, ht]
  · intro hb
    rw [hfj, hb]
    rfl
  · intro v hb hv
    rw [hfj, hb]
    cases v with
    | jnull => exact absurd rfl hv
    | jbool b => rfl
    | jnum n => rfl
    | jstr s => rfl
  · intro hb
    rw [hfj, hb]
    rfl
  · intro m hc
    cases hc
  · intro fs hb hl
    rw [hfj, hb]
    simp [fetchFailure, hl]
  · intro fs v hb hl ht
    rw [hfj, hb]
    simp [fetchFailure, hl, ht]
  · simp [fetchAllStep, hfj, setError]
  · simp [fetchAllStep, hfj, setError, errMessage]

/-- Witness for C7 (amended): body `{"detail":"bad gateway"}` on a failed
dashboard pull gives message `"bad gateway"` and leaves the dashboard slot
of the initial store unchanged (still empty), recording the error. -/
theorem c7_amended_witness :
    fetchJSON DashboardData respDetailBG = Except.error (FetchErr.errMsg "bad gateway")
    ∧ (fetchAllStep storeInit respDetailBG 0).dashboard = none
    ∧ (fetchAllStep storeInit respDetailBG 0).error = some "bad gateway" := by
  have H := c7_amended respDetailBG storeInit 0 rfl
  exact ⟨H.1 [("detail", JVal.jstr "bad gateway")] (JVal.jstr "bad gateway") rfl rfl (by decide),
         H.2.2.2.2.2.2.2.1, H.2.2.2.2.2.2.2.2⟩

/-- C8.  The Layout poll scheduler issues one dashboard pull immediately on
start (pull 0 at time 0) and then one pull per interval tick, the ticks
spaced exactly `pollIntervalMs = 2000` apart; a failed pull writes the error
slot and leaves the dashboard slot alone, the interval stays installed, and
exactly one pull is issued per tick (no early retry). -/
theorem c8_poll_scheduler (s : Store) (r0 : PullResponse DashboardData) (now0 : Int)
    (st : SchedState) (r : PullResponse DashboardData) (now : Int) (i : Nat)
    (hact : st.intervalActive = true) (hfail : r.ok = false) :
    (schedStart s r0 now0).pullsIssued = 1
    ∧ (schedStart s r0 now0).intervalActive = true
    ∧ pullTime 0 = 0
    ∧ pullTime (i + 1) = pullTime i + pollIntervalMs
    ∧ (schedStep st (SchedEvent.tick r now)).intervalActive = true
    ∧ (schedStep st (SchedEvent.tick r now)).pullsIssued = st.pullsIssued + 1
    ∧ (schedStep st (SchedEvent.tick r now)).store.error
        = some (errMessage r.body r.statusText)
    ∧ (schedStep st (SchedEvent.tick r now)).store.dashboard = st.store.dashboard := by
  have hfj : fetchJSON DashboardData r = Except.error (fetchFailure r.body r.statusText) := by
    simp [fetchJSON, hfail]
  have hstep : schedStep st (SchedEvent.tick r now) =
      { store := fetchAllStep st.store r now
        intervalActive := true
        pullsIssued := st.pullsIssued + 1 } := by
    simp [schedStep, hact]
  refine ⟨rfl, rfl, rfl, ?_, ?_, ?_, ?_, ?_⟩
  · simp only [pullTime]
    push_cast
    ring
  · rw [hstep]
  · rw [hstep]
  · rw [hstep]
    simp [fetchAllStep, hfj, setError, errMessage]
  · rw [hstep]
    simp [fetchAllStep, hfj, setError]

/-- Witness for C8: start from the initial store with a failing first pull,
then one failing tick — one pull at start, the tick leaves the interval
installed, increments the pull count to 2, writes the error slot and leaves
the dashboard slot unchanged; tick spacing is 2000 ms from time 0. -/
theorem c8_poll_scheduler_witness :
    (schedStart storeInit respBadGateway 0).pullsIssued = 1
    ∧ (schedStart storeInit respBadGateway 0).intervalActive = true
    ∧ pullTime 0 = 0
    ∧ pullTime 1 = pullTime 0 + pollIntervalMs
    ∧ (schedStep (schedStart storeInit respBadGateway 0)
        (SchedEvent.tick respBadGateway 2000)).intervalActive = true
    ∧ (schedStep (schedStart storeInit respBadGateway 0)
        (SchedEvent.tick respBadGateway 2000)).pullsIssued
        = (schedStart storeInit respBadGateway 0).pullsIssued + 1
    ∧ (schedStep (schedStart storeInit respBadGateway 0)
        (SchedEvent.tick respBadGateway 2000)).store.error
        = some (errMessage respBadGateway.body respBadGateway.statusText)
    ∧ (schedStep (schedStart storeInit respBadGateway 0)
        (SchedEvent.tick respBadGateway 2000)).store.dashboard
        = (schedStart storeInit respBadGateway 0).store.dashboard :=
  c8_poll_scheduler storeInit respBadGateway 0 (schedStart storeInit respBadGateway 0)
    respBadGateway 2000 0 rfl rfl

/-- C9.  Snapshot dashboard-slot writes are wholesale replacements with
last-write-wins semantics: for any two writers (poll path or push path, in
any combination) issuing value `A` then value `B`, a read immediately after
the second write returns exactly `some B` — the second write installs the
whole record `B`, merging nothing from `A`. -/
theorem c9_last_write_wins (w1 w2 : DashWriter) (s : Store) (A B : DashboardData)
    (t1 t2 : Int) :
    (applyDashWrite w2 (applyDashWrite w1 s A t1) B t2).dashboard = some B := by
  cases w1 <;> cases w2 <;> rfl

/-- C10.  Every Snapshot setter modifies only its own slot: for every
pre-state and value, the setter's own slot holds the new value afterwards
and each of the other twelve slots is unchanged, for all thirteen setters. -/
theorem c10_setter_frame (s : Store) (p : Panel) (d : DashboardData)
    (ps : List Position) (tr : List Trade) (tg : List Toggle)
    (ec : List EquityPoint) (sc : ScoringData) (rk : RiskData) (po : List POI)
    (ab : Option BacktestStatus) (b : Bool) (e : Option String) (n : Int) :
    (setActivePanel s p).activePanel = p
    ∧ (setActivePanel s p).dashboard = s.dashboard
    ∧ (setActivePanel s p).positions = s.positions
    ∧ (setActivePanel s p).trades = s.trades
    ∧ (setActivePanel s p).toggles = s.toggles
    ∧ (setActivePanel s p).equityCurve = s.equityCurve
    ∧ (setActivePanel s p).scoring = s.scoring
    ∧ (setActivePanel s p).risk = s.risk
    ∧ (setActivePanel s p).pois = s.pois
    ∧ (setActivePanel s p).activeBacktest = s.activeBacktest
    ∧ (setActivePanel s p).loading = s.loading
    ∧ (setActivePanel s p).error = s.error
    ∧ (setActivePanel s p).lastUpdate = s.lastUpdate
    ∧ (setDashboard s d).dashboard = some d
    ∧ (setDashboard s d).activePanel = s.activePanel
    ∧ (setDashboard s d).positions = s.positions
    ∧ (setDashboard s d).trades = s.trades
    ∧ (setDashboard s d).toggles = s.toggles
    ∧ (setDashboard s d).equityCurve = s.equityCurve
    ∧ (setDashboard s d).scoring = s.scoring
    ∧ (setDashboard s d).risk = s.risk
    ∧ (setDashboard s d).pois = s.pois
    ∧ (setDashboard s d).activeBacktest = s.activeBacktest
    ∧ (setDashboard s d).loading = s.loading
    ∧ (setDashboard s d).error = s.error
    ∧ (setDashboard s d).lastUpdate = s.lastUpdate
    ∧ (setPositions s ps).positions = ps
    ∧ (setPositions s ps).activePanel = s.activePanel
    ∧ (setPositions s ps).dashboard = s.dashboard
    ∧ (setPositions s ps).trades = s.trades
    ∧ (setPositions s ps).toggles = s.toggles
    ∧ (setPositions s ps).equityCurve = s.equityCurve
    ∧ (setPositions s ps).scoring = s.scoring
    ∧ (setPositions s ps).risk = s.risk
    ∧ (setPositions s ps).pois = s.pois
    ∧ (setPositions s ps).activeBacktest = s.activeBacktest
    ∧ (setPositions s ps).loading = s.loading
    ∧ (setPositions s ps).error = s.error
    ∧ (setPositions s ps).lastUpdate = s.lastUpdate
    ∧ (setTrades s tr).trades = tr
    ∧ (setTrades s tr).activePanel = s.activePanel
    ∧ (setTrades s tr).dashboard = s.dashboard
    ∧ (setTrades s tr).positions = s.positions
    ∧ (setTrades s tr).toggles = s.toggles
    ∧ (setTrades s tr).equityCurve = s.equityCurve
    ∧ (setTrades s tr).scoring = s.scoring
    ∧ (setTrades s tr).risk = s.risk
    ∧ (setTrades s tr).pois = s.pois
    ∧ (setTrades s tr).activeBacktest = s.activeBacktest
    ∧ (setTrades s tr).loading = s.loading
    ∧ (setTrades s tr).error = s.error
    ∧ (setTrades s tr).lastUpdate = s.lastUpdate
    ∧ (setToggles s tg).toggles = tg
    ∧ (setToggles s tg).activePanel = s.activePanel
    ∧ (setToggles s tg).dashboard = s.dashboard
    ∧ (setToggles s tg).positions = s.positions
    ∧ (setToggles s tg).trades = s.trades
    ∧ (setToggles s tg).equityCurve = s.equityCurve
    ∧ (setToggles s tg).scoring = s.scoring
    ∧ (setToggles s tg).risk = s.risk
    ∧ (setToggles s tg).pois = s.pois
    ∧ (setToggles s tg).activeBacktest = s.activeBacktest
    ∧ (setToggles s tg).loading = s.loading
    ∧ (setToggles s tg).error = s.error
    ∧ (setToggles s tg).lastUpdate = s.lastUpdate
    ∧ (setEquityCurve s ec).equityCurve = ec
    ∧ (setEquityCurve s ec).activePanel = s.activePanel
    ∧ (setEquityCurve s ec).dashboard = s.dashboard
    ∧ (setEquityCurve s ec).positions = s.positions
    ∧ (setEquityCurve s ec).trades = s.trades
    ∧ (setEquityCurve s ec).toggles = s.toggles
    ∧ (setEquityCurve s ec).scoring = s.scoring
    ∧ (setEquityCurve s ec).risk = s.risk
    ∧ (setEquityCurve s ec).pois = s.pois
    ∧ (setEquityCurve s ec).activeBacktest = s.activeBacktest
    ∧ (setEquityCurve s ec).loading = s.loading
    ∧ (setEquityCurve s ec).error = s.error
    ∧ (setEquityCurve s ec).lastUpdate = s.lastUpdate
    ∧ (setScoring s sc).scoring = some sc
    ∧ (setScoring s sc).activePanel = s.activePanel
    ∧ (setScoring s sc).dashboard = s.dashboard
    ∧ (setScoring s sc).positions = s.positions
    ∧ (setScoring s sc).trades = s.trades
    ∧ (setScoring s sc).toggles = s.toggles
    ∧ (setScoring s sc).equityCurve = s.equityCurve
    ∧ (setScoring s sc).risk = s.risk
    ∧ (setScoring s sc).pois = s.pois
    ∧ (setScoring s sc).activeBacktest = s.activeBacktest
    ∧ (setScoring s sc).loading = s.loading
    ∧ (setScoring s sc).error = s.error
    ∧ (setScoring s sc).lastUpdate = s.lastUpdate
    ∧ (setRisk s rk).risk = some rk
    ∧ (setRisk s rk).activePanel = s.activePanel
    ∧ (setRisk s rk).dashboard = s.dashboard
    ∧ (setRisk s rk).positions = s.positions
    ∧ (setRisk s rk).trades = s.trades
    ∧ (setRisk s rk).toggles = s.toggles
    ∧ (setRisk s rk).equityCurve = s.equityCurve
    ∧ (setRisk s rk).scoring = s.scoring
    ∧ (setRisk s rk).pois = s.pois
    ∧ (setRisk s rk).activeBacktest = s.activeBacktest
    ∧ (setRisk s rk).loading = s.loading
    ∧ (setRisk s rk).error = s.error
    ∧ (setRisk s rk).lastUpdate = s.lastUpdate
    ∧ (setPois s po).pois = po
    ∧ (setPois s po).activePanel = s.activePanel
    ∧ (setPois s po).dashboard = s.dashboard
    ∧ (setPois s po).positions = s.positions
    ∧ (setPois s po).trades = s.trades
    ∧ (setPois s po).toggles = s.toggles
    ∧ (setPois s po).equityCurve = s.equityCurve
    ∧ (setPois s po).scoring = s.scoring
    ∧ (setPois s po).risk = s.risk
    ∧ (setPois s po).activeBacktest = s.activeBacktest
    ∧ (setPois s po).loading = s.loading
    ∧ (setPois s po).error = s.error
    ∧ (setPois s po).lastUpdate = s.lastUpdate
    ∧ (setActiveBacktest s ab).activeBacktest = ab
    ∧ (setActiveBacktest s ab).activePanel = s.activePanel
    ∧ (setActiveBacktest s ab).dashboard = s.dashboard
    ∧ (setActiveBacktest s ab).positions = s.positions
    ∧ (setActiveBacktest s ab).trades = s.trades
    ∧ (setActiveBacktest s ab).toggles = s.toggles
    ∧ (setActiveBacktest s ab).equityCurve = s.equityCurve
    ∧ (setActiveBacktest s ab).scoring = s.scoring
    ∧ (setActiveBacktest s ab).risk = s.risk
    ∧ (setActiveBacktest s ab).pois = s.pois
    ∧ (setActiveBacktest s ab).loading = s.loading
    ∧ (setActiveBacktest s ab).error = s.error
    ∧ (setActiveBacktest s ab).lastUpdate = s.lastUpdate
    ∧ (setLoading s b).loading = b
    ∧ (setLoading s b).activePanel = s.activePanel
    ∧ (setLoading s b).dashboard = s.dashboard
    ∧ (setLoading s b).positions = s.positions
    ∧ (setLoading s b).trades = s.trades
    ∧ (setLoading s b).toggles = s.toggles
    ∧ (setLoading s b).equityCurve = s.equityCurve
    ∧ (setLoading s b).scoring = s.scoring
    ∧ (setLoading s b).risk = s.risk
    ∧ (setLoading s b).pois = s.pois
    ∧ (setLoading s b).activeBacktest = s.activeBacktest
    ∧ (setLoading s b).error = s.error
    ∧ (setLoading s b).lastUpdate = s.lastUpdate
    ∧ (setError s e).error = e
    ∧ (setError s e).activePanel = s.activePanel
    ∧ (setError s e).dashboard = s.dashboard
    ∧ (setError s e).positions = s.positions
    ∧ (setError s e).trades = s.trades
    ∧ (setError s e).toggles = s.toggles
    ∧ (setError s e).equityCurve = s.equityCurve
    ∧ (setError s e).scoring = s.scoring
    ∧ (setError s e).risk = s.risk
    ∧ (setError s e).pois = s.pois
    ∧ (setError s e).activeBacktest = s.activeBacktest
    ∧ (setError s e).loading = s.loading
    ∧ (setError s e).lastUpdate = s.lastUpdate
    ∧ (setLastUpdate s n).lastUpdate = n
    ∧ (setLastUpdate s n).activePanel = s.activePanel
    ∧ (setLastUpdate s n).dashboard = s.dashboard
    ∧ (setLastUpdate s n).positions = s.positions
    ∧ (setLastUpdate s n).trades = s.trades
    ∧ (setLastUpdate s n).toggles = s.toggles
    ∧ (setLastUpdate s n).equityCurve = s.equityCurve
    ∧ (setLastUpdate s n).scoring = s.scoring
    ∧ (setLastUpdate s n).risk = s.risk
    ∧ (setLastUpdate s n).pois = s.pois
    ∧ (setLastUpdate s n).activeBacktest = s.activeBacktest
    ∧ (setLastUpdate s n).loading = s.loading
    ∧ (setLastUpdate s n).error = s.error := by
  repeat' constructor
